import Mathlib

/-!
Shallow embedding of the Backtest Result Aggregation & Scoring Engine of the
jessy repository (FreqTrade/strategy_rating_system_standalone.py,
FreqTrade/strategy_rating_system.py, FreqTrade/strategy_rating_system_postgresql.py,
FreqTrade/rating_api_server.py, FreqTrade/rating_web_interface_standalone.py).

Conventions of the embedding:
* Python floats are modelled as rationals; Python ints as integers or naturals.
* Python dicts of numeric metrics are modelled as association lists
  (`MetricMap`); `d.get(k, v)` becomes `(m.lookup k).getD v`.
* File and database access is modelled by passing the would-be file contents
  (strategy catalog, stored ratings, run lists) as explicit arguments, and by
  returning the write operations a run would perform as an explicit trace.
* Fields that only feed presentation (timerange_display, days_tested date
  arithmetic, the stoploss regex re-extraction, all_backtests raw copies) are
  not modelled; no claim mentions them.
* Metric field names ending in "_ratio" in the Python sources are shortened to
  "sharpe", "sortino", "calmar" as Lean identifiers (the postgresql variant of
  the source itself uses these short keys); the string keys used in the
  association lists keep the exact source spelling.
-/

/-- A Python dict from string keys to floats, as an association list. -/
abbrev MetricMap := List (String × ℚ)

/-- Python d.get(k, 0) on a numeric dict. -/
def mget (m : MetricMap) (k : String) : ℚ := (m.lookup k).getD 0

/-- Python d.get(k, d0) on a numeric dict. -/
def mgetD (m : MetricMap) (k : String) (d0 : ℚ) : ℚ := (m.lookup k).getD d0

/-- statistics.median: sort ascending, take the middle element when the length
is odd, the mean of the two middle elements when it is even.  (Only ever
applied to non-empty lists by the sources.) -/
def pyMedian (l : List ℚ) : ℚ :=
  let s := List.insertionSort (· ≤ ·) l
  let n := l.length
  if n % 2 = 1 then s.getD (n / 2) 0
  else (s.getD (n / 2 - 1) 0 + s.getD (n / 2) 0) / 2

/-- statistics.mean (only ever applied to non-empty lists by the sources). -/
def pyMean (l : List ℚ) : ℚ := l.sum / (l.length : ℚ)

/-- The numeric_fields list of calculate_median_metrics (identical in all
three rating-system variants). -/
def numeric_fields : List String :=
  ["total_trades", "winning_trades", "losing_trades", "win_rate",
   "total_profit_pct", "roi", "max_drawdown", "profit_factor",
   "sharpe_ratio", "sortino_ratio", "calmar_ratio", "expectancy",
   "cagr", "avg_profit", "buys", "rejected_signals"]

/-- The list comprehension [m.get(field, 0) for m in metrics_list if field in m]:
the values of a field over the run dicts that contain it. -/
def observedValues (field : String) (ml : List MetricMap) : List ℚ :=
  ml.filterMap (fun m => m.lookup field)

/-- The median of a field across the run dicts that contain it, when any do. -/
def medianValue (ml : List MetricMap) (field : String) : Option ℚ :=
  match observedValues field ml with
  | [] => none
  | v :: vs => some (pyMedian (v :: vs))

/-- One iteration of the median loop: a ("median_" + field, median) entry when
the field has at least one observed value, nothing otherwise. -/
def medianEntry (ml : List MetricMap) (field : String) : Option (String × ℚ) :=
  (medianValue ml field).map (fun x => ("median_" ++ field, x))

/-- calculate_median_metrics (strategy_rating_system_standalone.py lines
484-503; textually the same loop in the other two variants). -/
def calculate_median_metrics (ml : List MetricMap) : MetricMap :=
  if ml = [] then [] else numeric_fields.filterMap (medianEntry ml)

/-- NINJA_WEIGHTS (identical dict in all three rating-system variants). -/
def NINJA_WEIGHTS : List (String × ℚ) :=
  [("buys", 9), ("avgprof", 26), ("totprofp", 26), ("winp", 24), ("ddp", -25),
   ("stoploss", 7), ("sharpe", 7), ("sortino", 7), ("calmar", 7),
   ("expectancy", 8), ("profit_factor", 9), ("cagr", 10),
   ("rejected_signals", -25), ("backtest_win_percentage", 10)]

/-- NINJA_WEIGHTS[k]. -/
def wght (k : String) : ℚ := (NINJA_WEIGHTS.lookup k).getD 0

/-- The normalize helper inside calculate_ninja_score. -/
def pyNormalize (value min_val max_val : ℚ) : ℚ :=
  if max_val = min_val then 0
  else min 100 (max 0 ((value - min_val) / (max_val - min_val) * 100))

/-- calculate_ninja_score (strategy_rating_system_standalone.py lines 355-404;
the strategy_rating_system.py and strategy_rating_system_postgresql.py versions
are the same computation, one of them in Decimal arithmetic).  Note that the
final component recomputes backtest_win_pct from backtest_count alone; the
"backtest_win_percentage" entry of the metrics dict is never read. -/
def calculate_ninja_score (metrics : MetricMap) (backtest_count : ℕ) : ℚ :=
  let score0 : ℚ := 0
  let buys_score := pyNormalize (mget metrics "buys") 0 1000
  let score1 := score0 + buys_score * wght "buys"
  let avgprof_score := pyNormalize (mget metrics "avg_profit") (-5) 5
  let score2 := score1 + avgprof_score * wght "avgprof"
  let totprofp_score := pyNormalize (mget metrics "total_profit_pct") (-50) 50
  let score3 := score2 + totprofp_score * wght "totprofp"
  let winp_score := pyNormalize (mget metrics "win_rate") 0 100
  let score4 := score3 + winp_score * wght "winp"
  let ddp_score := pyNormalize (mget metrics "max_drawdown") 0 50
  let score5 := score4 + (100 - ddp_score) * wght "ddp"
  let sharpe_score := pyNormalize (mget metrics "sharpe_ratio") (-2) 5
  let score6 := score5 + sharpe_score * wght "sharpe"
  let sortino_score := pyNormalize (mget metrics "sortino_ratio") (-2) 5
  let score7 := score6 + sortino_score * wght "sortino"
  let calmar_score := pyNormalize (mget metrics "calmar_ratio") (-2) 5
  let score8 := score7 + calmar_score * wght "calmar"
  let expectancy_score := pyNormalize (mget metrics "expectancy") (-1) 1
  let score9 := score8 + expectancy_score * wght "expectancy"
  let pf_score := pyNormalize (mget metrics "profit_factor") 0 5
  let score10 := score9 + pf_score * wght "profit_factor"
  let cagr_score := pyNormalize (mget metrics "cagr") (-50) 100
  let score11 := score10 + cagr_score * wght "cagr"
  let rejected_score := pyNormalize (mget metrics "rejected_signals") 0 100
  let score12 := score11 + (100 - rejected_score) * wght "rejected_signals"
  let backtest_win_pct : ℚ :=
    if backtest_count > 0 then
      ((backtest_count : ℚ) / ((max backtest_count 1 : ℕ) : ℚ)) * 100
    else 0
  score12 + backtest_win_pct * wght "backtest_win_percentage"

/-- s.startswith(pre). -/
def strStartsWith (s pre : String) : Bool := pre.data.isPrefixOf s.data

/-- Python membership test c in s for a single character. -/
def containsChar (s : String) (c : Char) : Bool := s.data.contains c

/-- s.split(sep)[0] for the single-character separator, i.e. the text before
the first occurrence of c (the whole string when c does not occur). -/
def takeBeforeUnderscore (s : String) : String := ⟨s.data.takeWhile (· ≠ '_')⟩

/-- s.split(c) for a single-character separator. -/
def pySplit (c : Char) (s : String) : List String :=
  (s.data.splitOn c).map (fun l => ⟨l⟩)

/-- s.lower() (ASCII range; the exchange / stake-currency / timeframe values
this is applied to are ASCII). -/
def lowerStr (s : String) : String :=
  ⟨s.data.map (fun c => if 'A' ≤ c ∧ c ≤ 'Z' then Char.ofNat (c.toNat + 32) else c)⟩

/-- s.upper() (ASCII range). -/
def upperStr (s : String) : String :=
  ⟨s.data.map (fun c => if 'a' ≤ c ∧ c ≤ 'z' then Char.ofNat (c.toNat - 32) else c)⟩

/-- The canonical per-run metrics dict built by extract_backtest_metrics
(all variants emit exactly these keys; the numeric ones always present). -/
structure Metrics where
  strategy_name : String
  total_trades : ℤ
  winning_trades : ℤ
  losing_trades : ℤ
  win_rate : ℚ
  total_profit_pct : ℚ
  roi : ℚ
  max_drawdown : ℚ
  profit_factor : ℚ
  sharpe : ℚ
  sortino : ℚ
  calmar : ℚ
  expectancy : ℚ
  cagr : ℚ
  avg_profit : ℚ
  buys : ℤ
  rejected_signals : ℤ
  leverage : ℚ
  timeframe : String
  timerange : String
deriving DecidableEq

/-- The numeric part of the metrics dict, with the exact source keys, as fed
to calculate_median_metrics. -/
def Metrics.toMap (m : Metrics) : MetricMap :=
  [("total_trades", (m.total_trades : ℚ)), ("winning_trades", (m.winning_trades : ℚ)),
   ("losing_trades", (m.losing_trades : ℚ)), ("win_rate", m.win_rate),
   ("total_profit_pct", m.total_profit_pct), ("roi", m.roi),
   ("max_drawdown", m.max_drawdown), ("profit_factor", m.profit_factor),
   ("sharpe_ratio", m.sharpe), ("sortino_ratio", m.sortino),
   ("calmar_ratio", m.calmar), ("expectancy", m.expectancy),
   ("cagr", m.cagr), ("avg_profit", m.avg_profit), ("buys", (m.buys : ℚ)),
   ("rejected_signals", (m.rejected_signals : ℚ))]

/-- Stall classification of save_to_json (strategy_rating_system_standalone.py
lines 562-592): a chain of independent if-statements, each overwriting the
previous is_stalled / stall_reason, so the LAST matching rule provides the
reason.  The no_trades rule fires only when additionally no run in the list
carries a complete identity (non-empty strategy_name, timeframe, timerange). -/
def stall_standalone (metrics_list : List Metrics) (has_lookahead : Bool) :
    Bool × Option String :=
  let st0 : Bool × Option String := (false, none)
  let avg_profit := pyMean (metrics_list.map (·.total_profit_pct))
  let st1 :=
    if avg_profit < -(30 : ℚ)/100 ∧
        metrics_list.all (fun m => decide (m.total_profit_pct < 0))
    then (true, some "negative") else st0
  let negative_count :=
    (metrics_list.filter (fun m => decide (m.total_profit_pct < 0))).length
  let st2 :=
    if metrics_list.length ≥ 12 ∧
        ((negative_count : ℚ) / (metrics_list.length : ℚ)) ≥ (90 : ℚ)/100
    then (true, some "90_percent_negative") else st1
  let st3 := if has_lookahead then (true, some "biased") else st2
  if metrics_list.all (fun m => decide (m.total_trades = 0)) then
    let has_valid_backtest := metrics_list.any
      (fun m => decide (m.strategy_name ≠ "" ∧ m.timeframe ≠ "" ∧ m.timerange ≠ ""))
    if ¬has_valid_backtest then (true, some "no_trades") else st3
  else st3

/-- Stall classification of save_to_database (strategy_rating_system.py lines
355-379): same overwrite chain, but the no_trades rule is unconditional. -/
def stall_database (metrics_list : List Metrics) (has_lookahead : Bool) :
    Bool × Option String :=
  let st0 : Bool × Option String := (false, none)
  let avg_profit := pyMean (metrics_list.map (·.total_profit_pct))
  let st1 :=
    if avg_profit < -(30 : ℚ)/100 ∧
        metrics_list.all (fun m => decide (m.total_profit_pct < 0))
    then (true, some "negative") else st0
  let negative_count :=
    (metrics_list.filter (fun m => decide (m.total_profit_pct < 0))).length
  let st2 :=
    if metrics_list.length ≥ 12 ∧
        ((negative_count : ℚ) / (metrics_list.length : ℚ)) ≥ (90 : ℚ)/100
    then (true, some "90_percent_negative") else st1
  let st3 := if has_lookahead then (true, some "biased") else st2
  if metrics_list.all (fun m => decide (m.total_trades = 0)) then
    (true, some "no_trades")
  else st3

/-- A persisted rating record (the dict written by save_to_json / the row of
strategy_ratings; the spread median_* entries live in the medians field).
timerange_display, days_tested, has_tight_trailing_stop (constant False) and
the raw all_backtests copy are presentation-only and not modelled. -/
structure Rating where
  strategy_name : String
  strategy_key : String
  exchange : String
  stake_currency : String
  timeframe : String
  timerange : String
  total_backtests : ℕ
  updated_at : String
  medians : MetricMap
  backtest_win_percentage : ℚ
  ninja_score : ℚ
  has_lookahead_bias : Bool
  lookahead_issues : List String
  leverage : ℚ
  strategy_hash : Option String
  is_stalled : Bool
  stall_reason : Option String
  is_active : Bool
deriving DecidableEq

/-- k.replace("median_", "") as applied to the median_* keys (each such key
contains the pattern exactly once, as its prefix). -/
def stripMedianKey (k : String) : String :=
  if strStartsWith k "median_" then ⟨k.data.drop 7⟩ else k

/-- save_to_json (strategy_rating_system_standalone.py lines 505-625) up to
the file write: the rating object it builds.  File-system inputs (the bias
scan of the strategy source, its hash, the clock) are passed in as arguments;
an empty run list returns none (the source returns before writing). -/
def save_to_json (strategy_name : String) (metrics_list : List Metrics)
    (has_lookahead : Bool) (lookahead_issues : List String)
    (strategy_hash : Option String) (now : String) : Option Rating :=
  if metrics_list = [] then none else
  let base_strategy_name :=
    if containsChar strategy_name '_' then takeBeforeUnderscore strategy_name
    else strategy_name
  let median_metrics := calculate_median_metrics (metrics_list.map Metrics.toMap)
  let profitable_backtests :=
    (metrics_list.filter (fun m => decide (m.total_profit_pct > 0))).length
  let backtest_win_pct := ((profitable_backtests : ℚ) / (metrics_list.length : ℚ)) * 100
  let combined_metrics : MetricMap :=
    (median_metrics.map (fun kv => (stripMedianKey kv.1, kv.2)))
      ++ [("backtest_win_percentage", backtest_win_pct)]
  let score := calculate_ninja_score combined_metrics metrics_list.length
  let leverage := (metrics_list.head?.map (·.leverage)).getD 1
  let timeframe := (metrics_list.head?.map (·.timeframe)).getD "5m"
  let timerange0 := (metrics_list.head?.map (·.timerange)).getD ""
  let timerange :=
    if timerange0 = "" ∧ containsChar strategy_name '_' then
      let parts := pySplit '_' strategy_name
      let last_part := parts.getLast?.getD ""
      if parts.length ≥ 3 ∧ last_part.length = 17 ∧ containsChar last_part '-'
      then last_part else timerange0
    else timerange0
  let stall := stall_standalone metrics_list has_lookahead
  some
    { strategy_name := base_strategy_name
      strategy_key := strategy_name
      exchange := "gateio"
      stake_currency := "USDT"
      timeframe := timeframe
      timerange := timerange
      total_backtests := metrics_list.length
      updated_at := now
      medians := median_metrics
      backtest_win_percentage := backtest_win_pct
      ninja_score := score
      has_lookahead_bias := has_lookahead
      lookahead_issues := lookahead_issues
      leverage := leverage
      strategy_hash := strategy_hash
      is_stalled := stall.1
      stall_reason := stall.2
      is_active := !stall.1 }

/-- One row of the strategy_ratings table (claim-relevant columns). -/
structure DbRow where
  strategy_name : String
  exchange : String
  stake_currency : String
  total_backtests : ℕ
  medians : MetricMap
  backtest_win_percentage : ℚ
  ninja_score : ℚ
  has_lookahead_bias : Bool
  leverage : ℚ
  strategy_hash : Option String
  is_stalled : Bool
  stall_reason : Option String
  is_active : Bool
deriving DecidableEq

/-- The VALUES row computed by StrategyRatingSystem.save_to_database
(strategy_rating_system.py lines 319-458).  Note the combined metrics dict is
merged WITHOUT stripping the median_ prefix there, and the is_active value
passed is not is_stalled. -/
def save_to_database_values (strategy_name : String) (metrics_list : List Metrics)
    (has_lookahead : Bool) (strategy_hash : Option String) : DbRow :=
  let median_metrics := calculate_median_metrics (metrics_list.map Metrics.toMap)
  let profitable_backtests :=
    (metrics_list.filter (fun m => decide (m.total_profit_pct > 0))).length
  let backtest_win_pct := ((profitable_backtests : ℚ) / (metrics_list.length : ℚ)) * 100
  let combined_metrics : MetricMap :=
    median_metrics ++ [("backtest_win_percentage", backtest_win_pct)]
  let score := calculate_ninja_score combined_metrics metrics_list.length
  let leverage := (metrics_list.head?.map (·.leverage)).getD 1
  let stall := stall_database metrics_list has_lookahead
  { strategy_name := strategy_name
    exchange := "gateio"
    stake_currency := "USDT"
    total_backtests := metrics_list.length
    medians := median_metrics
    backtest_win_percentage := backtest_win_pct
    ninja_score := score
    has_lookahead_bias := has_lookahead
    leverage := leverage
    strategy_hash := strategy_hash
    is_stalled := stall.1
    stall_reason := stall.2
    is_active := !stall.1 }

/-- INSERT ... ON CONFLICT (strategy_name, exchange, stake_currency) DO UPDATE
of save_to_database (lines 382-458; the postgresql variant has the same column
list): a fresh identity inserts the full VALUES row; a conflicting identity
updates the listed columns — is_active is NOT in the DO UPDATE SET list and
keeps its previous value. -/
def upsertRow (existing : Option DbRow) (v : DbRow) : DbRow :=
  match existing with
  | none => v
  | some old =>
    { old with
      total_backtests := v.total_backtests
      medians := v.medians
      backtest_win_percentage := v.backtest_win_percentage
      ninja_score := v.ninja_score
      has_lookahead_bias := v.has_lookahead_bias
      leverage := v.leverage
      strategy_hash := v.strategy_hash
      is_stalled := v.is_stalled
      stall_reason := v.stall_reason }

/-- One entry of the trades array inside a backtest result JSON (claim-relevant
keys; profit_ratio / profit_abs default to 0 when absent, open_rate and
stake_amount keep their optional nature). -/
structure Trade where
  profitR : ℚ
  profitAbs : ℚ
  openRate : Option ℚ
  stakeAmount : Option ℚ
deriving DecidableEq

/-- Python truthiness of t.get("open_rate"): present and non-zero. -/
def Trade.openRateTruthy (t : Trade) : Bool :=
  match t.openRate with
  | some x => decide (x ≠ 0)
  | none => false

/-- One entry of results_per_pair.  The source accepts a dict or a list of
such entries and sums the same two fields either way, so a list models both. -/
structure PairResult where
  trades : ℤ
  profit_total_pct : ℚ
deriving DecidableEq

/-- The per-strategy block data["strategy"][name] of a nested-layout backtest
JSON, with the d.get(key, default) defaults already applied to the scalar
fields (absent numeric keys read as 0, absent timeframe as "5m", absent
timerange as "").  The date-derived timerange / days_tested fallbacks parse
timestamps and are not claim-relevant; they are not modelled. -/
structure StrategyData where
  total_trades : ℤ
  wins : ℤ
  losses : ℤ
  profit_total : ℚ
  profit_total_pct : ℚ
  trades : List Trade
  results_per_pair : List PairResult
  max_drawdown : ℚ
  profit_factor : ℚ
  sharpe : ℚ
  sortino : ℚ
  calmar : ℚ
  expectancy : ℚ
  cagr : ℚ
  rejected_signals : ℤ
  timeframe : String
  timerange : String
deriving DecidableEq

/-- Trade-count resolution of extract_backtest_metrics
(strategy_rating_system_standalone.py lines 164-187): keep the headline
total_trades; when it is zero fall back to the length of a non-empty trades
array; when still zero sum the per-pair trade counts. -/
def computedTotalTrades (sd : StrategyData) : ℤ :=
  let t0 := sd.total_trades
  let t1 := if t0 = 0 ∧ sd.trades ≠ [] then (sd.trades.length : ℤ) else t0
  if t1 = 0 ∧ sd.results_per_pair ≠ [] then
    (sd.results_per_pair.map (·.trades)).sum
  else t1

/-- Wins/losses resolution (lines 189-198): when both headline counters are
zero and trades exist, count them from the trades array. -/
def computedWinsLosses (sd : StrategyData) : ℤ × ℤ :=
  let w0 := sd.wins
  let l0 := sd.losses
  if w0 = 0 ∧ l0 = 0 ∧ computedTotalTrades sd > 0 ∧ sd.trades ≠ [] then
    ((sd.trades.filter (fun t => decide (t.profitR > 0))).length,
     (sd.trades.filter (fun t => decide (t.profitR ≤ 0))).length)
  else (w0, l0)

/-- sum(t.get("profit_ratio", 0) * 100 for t in trades_array). -/
def tradesProfitSum (sd : StrategyData) : ℚ :=
  (sd.trades.map (fun t => t.profitR * 100)).sum

/-- The recomputation taken when the resolved trade count is positive and the
trades array is non-empty (lines 207-218): the profit_ratio sum, with a
profit_abs / initial-stake fallback when that sum is zero. -/
def profitFromTrades (sd : StrategyData) : ℚ :=
  let s := tradesProfitSum sd
  if s = 0 then
    let total_profit_abs := (sd.trades.map (·.profitAbs)).sum
    let t0 := (sd.trades.head?).getD ⟨0, 0, none, none⟩
    if total_profit_abs ≠ 0 ∧ t0.openRateTruthy then
      let initial_stake := t0.stakeAmount.getD 1000
      if initial_stake > 0 then total_profit_abs / initial_stake * 100 else s
    else s
  else s

/-- Profit resolution (lines 200-234): whenever the resolved trade count is
positive and the trades array is non-empty, the headline profit_total_pct is
discarded and recomputed from the trades; a zero result then falls back to
summing results_per_pair. -/
def computedProfitTotalPct (sd : StrategyData) : ℚ :=
  let p1 :=
    if computedTotalTrades sd > 0 ∧ sd.trades ≠ [] then profitFromTrades sd
    else sd.profit_total_pct
  if p1 = 0 ∧ sd.results_per_pair ≠ [] then
    (sd.results_per_pair.map (·.profit_total_pct)).sum
  else p1

/-- The nested-layout branch of extract_backtest_metrics
(strategy_rating_system_standalone.py lines 160-308): the canonical metrics
dict built from one per-strategy block. -/
def extract_strategy_block (strategy_name : String) (sd : StrategyData) : Metrics :=
  let total_trades := computedTotalTrades sd
  let wl := computedWinsLosses sd
  let profit_total_pct := computedProfitTotalPct sd
  let win_rate :=
    if total_trades > 0 then ((wl.1 : ℚ) / (total_trades : ℚ)) * 100 else 0
  { strategy_name := strategy_name
    total_trades := total_trades
    winning_trades := wl.1
    losing_trades := wl.2
    win_rate := win_rate
    total_profit_pct := profit_total_pct
    roi := profit_total_pct
    max_drawdown := |sd.max_drawdown|
    profit_factor := sd.profit_factor
    sharpe := sd.sharpe
    sortino := sd.sortino
    calmar := sd.calmar
    expectancy := sd.expectancy
    cagr := sd.cagr
    avg_profit := profit_total_pct / ((max total_trades 1 : ℤ) : ℚ)
    buys := total_trades
    rejected_signals := sd.rejected_signals
    leverage := 1
    timeframe := sd.timeframe
    timerange := sd.timerange }

/-- One input archive as seen by extract_backtest_metrics.  corruptArchive
stands for any archive whose read or parse raises (bad zip, bad JSON, missing
keys of the wrong shape): the source catches every exception and returns None.
unrecognizedLayout stands for a readable archive in which neither the nested
strategy block nor the legacy results block yields data (the source returns
None without raising). -/
inductive Archive where
  | corruptArchive : Archive
  | unrecognizedLayout : Archive
  | strategyBlock (name : String) (sd : StrategyData) : Archive
deriving DecidableEq

/-- extract_backtest_metrics as a total function: every archive yields either
a metrics dict or None, never an exception. -/
def extract_backtest_metrics : Archive → Option Metrics
  | Archive.corruptArchive => none
  | Archive.unrecognizedLayout => none
  | Archive.strategyBlock name sd => some (extract_strategy_block name sd)

/-- strategy_key construction of process_all_backtests
(strategy_rating_system_standalone.py lines 421-430). -/
def strategyKeyOf (m : Metrics) : String :=
  if m.timerange ≠ "" then
    m.strategy_name ++ "_" ++ m.timeframe ++ "_" ++ m.timerange
  else m.strategy_name ++ "_" ++ m.timeframe

/-- strategies_metrics[key].append(metrics) with dict insertion-order
semantics: extend the existing group or append a new one at the end. -/
def addToGroups (groups : List (String × List Metrics)) (m : Metrics) :
    List (String × List Metrics) :=
  let k := strategyKeyOf m
  if (groups.lookup k).isSome then
    groups.map (fun g => if g.1 == k then (g.1, g.2 ++ [m]) else g)
  else groups ++ [(k, [m])]

/-- The ingestion loop of process_all_backtests (lines 415-435): extract each
archive, skip the ones that yield no metrics, group the rest by strategy key. -/
def processGroupsAux (groups : List (String × List Metrics)) :
    List Archive → List (String × List Metrics)
  | [] => groups
  | a :: rest =>
    match extract_backtest_metrics a with
    | none => processGroupsAux groups rest
    | some m => processGroupsAux (addToGroups groups m) rest

/-- process_all_backtests grouping stage over a batch of archives. -/
def process_groups (archives : List Archive) : List (String × List Metrics) :=
  processGroupsAux [] archives

/-- The strategy_exists test of get_rankings_from_json
(rating_web_interface_standalone.py lines 40-57), against the catalog of
strategy file stems found on disk. -/
def strategyExistsCheck (catalog : List String) (r : Rating) : Bool :=
  let sn := r.strategy_name
  let sk := r.strategy_key
  let base := if containsChar sn '_' then takeBeforeUnderscore sn else sn
  catalog.contains sn ||
  catalog.contains base ||
  catalog.any (fun s => strStartsWith s (base ++ "_") || s == base) ||
  (if sk ≠ "" ∧ containsChar sk '_' then catalog.contains (takeBeforeUnderscore sk)
   else false)

/-- get_rankings_from_json (rating_web_interface_standalone.py lines 26-68):
read the combined rankings file, keep records whose strategy exists on disk
AND which do not have the lookahead-bias flag, truncate to limit.  The file
contents and the on-disk strategy catalog are passed in. -/
def get_rankings_from_json (catalog : List String) (stored : List Rating)
    (lim : ℕ) : List Rating :=
  (stored.filter
    (fun r => strategyExistsCheck catalog r && !r.has_lookahead_bias)).take lim

/-- The query parameters of get_rankings_with_tab (rating_api_server.py lines
313-330), with the route defaults.  show_dca / show_multiclass only guard
no-op TODO branches and are not modelled; max_leverage is the parsed integer
(none when the parameter is absent, blank, or unparseable — the source
swallows the parse error and applies no bound).  There is no offset
parameter. -/
structure QueryParams where
  tab : Option String := none
  min_trades : ℤ := 0
  min_profit : ℚ := -100
  max_leverage : Option ℤ := none
  exclude_stalled : Bool := true
  exclude_bias : Bool := true
  sort_by : String := "ninja_score"
  order : String := "desc"
  limit : ℕ := 100
  exchange : Option String := none
  stake : Option String := none
  hide_negative : Bool := false
  timeframe : Option String := none
deriving DecidableEq

/-- Tab handling (rating_api_server.py lines 347-363): latest re-sorts by
update time descending, failed keeps only stalled or zero-backtest records,
private / dca / multiclass / main leave the list unchanged. -/
def applyTab (tab : Option String) (rankings : List Rating) : List Rating :=
  if tab = some "latest" then
    List.insertionSort (fun a b => b.updated_at ≤ a.updated_at) rankings
  else if tab = some "failed" then
    rankings.filter (fun r => r.is_stalled || decide (r.total_backtests = 0))
  else rankings

/-- The filter loop body (rating_api_server.py lines 366-411): true when the
record survives every continue. -/
def passesFilters (p : QueryParams) (r : Rating) : Bool :=
  (match p.exchange with
   | none => true
   | some e => lowerStr r.exchange == lowerStr e) &&
  (match p.stake with
   | none => true
   | some s => upperStr r.stake_currency == upperStr s) &&
  (match p.timeframe with
   | none => true
   | some t => lowerStr r.timeframe == lowerStr t) &&
  (!(p.hide_negative && decide (mgetD r.medians "median_total_profit_pct" 0 < 0))) &&
  (!(decide (mgetD r.medians "median_total_trades" 0 < (p.min_trades : ℚ)))) &&
  (!(decide (mgetD r.medians "median_total_profit_pct" (-100) < p.min_profit))) &&
  (match p.max_leverage with
   | none => true
   | some v => !(decide (r.leverage > (v : ℚ)))) &&
  (if p.tab = some "failed" then true else !(p.exclude_stalled && r.is_stalled)) &&
  (!(p.exclude_bias && r.has_lookahead_bias))

/-- All conjuncts of passesFilters except the exclude_stalled one: the
stall-independent filters. -/
def otherFiltersPass (p : QueryParams) (r : Rating) : Bool :=
  (match p.exchange with
   | none => true
   | some e => lowerStr r.exchange == lowerStr e) &&
  (match p.stake with
   | none => true
   | some s => upperStr r.stake_currency == upperStr s) &&
  (match p.timeframe with
   | none => true
   | some t => lowerStr r.timeframe == lowerStr t) &&
  (!(p.hide_negative && decide (mgetD r.medians "median_total_profit_pct" 0 < 0))) &&
  (!(decide (mgetD r.medians "median_total_trades" 0 < (p.min_trades : ℚ)))) &&
  (!(decide (mgetD r.medians "median_total_profit_pct" (-100) < p.min_profit))) &&
  (match p.max_leverage with
   | none => true
   | some v => !(decide (r.leverage > (v : ℚ)))) &&
  (!(p.exclude_bias && r.has_lookahead_bias))

/-- avg_prof of the frontend transformation (rating_api_server.py lines
421-424): median_avg_profit, or total-profit/total-trades when that is zero
and trades are positive. -/
def avgProfOf (r : Rating) : ℚ :=
  let a := mgetD r.medians "median_avg_profit" 0
  if a = 0 ∧ mgetD r.medians "median_total_trades" 0 > 0 then
    mgetD r.medians "median_total_profit_pct" 0 / mgetD r.medians "median_total_trades" 1
  else a

/-- Numeric key lookup on the transformed ranking dict (rating_api_server.py
lines 413-456): the synthesized avg_* aliases, the scalar rating fields a sort
can target, then the median_* entries.  The stoploss value is re-read from the
strategy source file there and is not modelled. -/
def transformedLookup (r : Rating) (k : String) : Option ℚ :=
  if k == "ninja_score" then some r.ninja_score
  else if k == "backtest_win_percentage" then some r.backtest_win_percentage
  else if k == "total_backtests" then some (r.total_backtests : ℚ)
  else if k == "leverage" then some r.leverage
  else if k == "avg_buys" then
    some (let b := mgetD r.medians "median_buys" 0
          if b ≠ 0 then b else mgetD r.medians "median_total_trades" 0)
  else if k == "avg_prof" then some (avgProfOf r)
  else if k == "avg_tot_profit_pct" then some (mgetD r.medians "median_total_profit_pct" 0)
  else if k == "avg_win_pct" then some (mgetD r.medians "median_win_rate" 0)
  else if k == "avg_dd_pct" then some |mgetD r.medians "median_max_drawdown" 0|
  else if k == "avg_sharpe" then some (mgetD r.medians "median_sharpe_ratio" 0)
  else if k == "median_avg_profit_pct" then some (avgProfOf r)
  else r.medians.lookup k

/-- key.replace("median_", "avg_") as applied to median_* sort keys. -/
def medianToAvg (k : String) : String :=
  if strStartsWith k "median_" then "avg_" ++ (⟨k.data.drop 7⟩ : String) else k

/-- The sort_key function (rating_api_server.py lines 462-467):
x.get(key, x.get(key.replace("median_", "avg_"), 0)) for median_* keys,
x.get(key, 0) otherwise. -/
def sortVal (sort_by : String) (r : Rating) : ℚ :=
  if strStartsWith sort_by "median_" then
    (transformedLookup r sort_by).getD ((transformedLookup r (medianToAvg sort_by)).getD 0)
  else (transformedLookup r sort_by).getD 0

/-- transformed_rankings.sort(key=sort_key, reverse=(order.lower()=="desc")). -/
def sortRankings (p : QueryParams) (l : List Rating) : List Rating :=
  if lowerStr p.order == "desc" then
    List.insertionSort (fun a b => sortVal p.sort_by b ≤ sortVal p.sort_by a) l
  else
    List.insertionSort (fun a b => sortVal p.sort_by a ≤ sortVal p.sort_by b) l

/-- get_rankings_with_tab (rating_api_server.py lines 313-482) as a function
of the strategy catalog and the rankings-file contents: load (limit 1000, with
the biased-record drop), apply the tab, apply the filters, sort, and answer
with the first p.limit records; both the total and filtered counts reported
are the length of the whole filtered list. -/
def get_rankings_with_tab (catalog : List String) (stored : List Rating)
    (p : QueryParams) : List Rating × ℕ × ℕ :=
  let rankings := get_rankings_from_json catalog stored 1000
  let tabbed := applyTab p.tab rankings
  let filtered := tabbed.filter (passesFilters p)
  let sorted := sortRankings p filtered
  (sorted.take p.limit, sorted.length, sorted.length)

/-- Modelled from the spec: "Pagination is a simple offset/limit slice of the
filtered+sorted set" (section 4.6).  The code exposes no offset parameter, so
this definition exists only to compare the spec's pagination contract with
the code's behavior. -/
def querySpecSlice (sorted_set : List Rating) (offset limit : ℕ) : List Rating :=
  (sorted_set.drop offset).take limit

/-- A file-system write operation.  writeRating and writeIndex model
Path.write_text — a direct in-place write of the whole content (lines 620-622
and 669-672 of strategy_rating_system_standalone.py); tempReplace models the
write-to-temp-then-replace idiom.  It is part of the alphabet so the spec's
atomicity contract can be stated; the source never performs it. -/
inductive FsOp where
  | writeRating (path : String) (r : Rating) : FsOp
  | writeIndex (path : String) (rankings : List Rating) : FsOp
  | tempReplace (tmp final : String) : FsOp
deriving DecidableEq

/-- Whether the operation is a write-to-temp-then-replace. -/
def FsOp.isTempReplace : FsOp → Bool
  | FsOp.tempReplace _ _ => true
  | _ => false

/-- Whether the operation writes a combined index file. -/
def FsOp.isIndexWrite : FsOp → Bool
  | FsOp.writeIndex _ _ => true
  | _ => false

/-- sorted(all_ratings.values(), key = x.get("ninja_score", 0), reverse=True)
(strategy_rating_system_standalone.py lines 659-663; ninja_score is present in
every rating the loop just built). -/
def scoreDescSort (l : List Rating) : List Rating :=
  List.insertionSort (fun a b => b.ninja_score ≤ a.ninja_score) l

instance : IsTotal Rating (fun a b => b.ninja_score ≤ a.ninja_score) :=
  ⟨fun a b => le_total b.ninja_score a.ninja_score⟩

instance : IsTrans Rating (fun a b => b.ninja_score ≤ a.ninja_score) :=
  ⟨fun _ _ _ hab hbc => le_trans hbc hab⟩

/-- The sequence of file writes performed by
StrategyRatingSystemStandalone.run (lines 627-680): one direct write of each
strategy's rating file from inside save_to_json, then one direct write of the
combined rankings.json index sorted by ninja_score descending.  biasOf and
hashOf supply, per base strategy name, what check_lookahead_bias and
calculate_strategy_hash would read from disk. -/
def runWrites (inputs : List (String × List Metrics))
    (biasOf : String → Bool × List String) (hashOf : String → Option String)
    (now : String) : List FsOp :=
  let saved : List (String × Rating) := inputs.filterMap
    (fun g =>
      let base := if containsChar g.1 '_' then takeBeforeUnderscore g.1 else g.1
      (save_to_json g.1 g.2 (biasOf base).1 (biasOf base).2 (hashOf base) now).map
        (fun r => (g.1, r)))
  (saved.map (fun g => FsOp.writeRating (g.1 ++ "_rating.json") g.2))
    ++ [FsOp.writeIndex "rankings.json" (scoreDescSort (saved.map (·.2)))]

/-- Input for the C5 witness: four runs observing total_profit_pct 1, 2, 3, 4. -/
def mlC5 : List MetricMap :=
  [[("total_profit_pct", 1)], [("total_profit_pct", 2)],
   [("total_profit_pct", 3)], [("total_profit_pct", 4)]]

/-- A zero-trade run with a complete identity and zero profit. -/
def runZeroTrades : Metrics :=
  { strategy_name := "EWO", total_trades := 0, winning_trades := 0,
    losing_trades := 0, win_rate := 0, total_profit_pct := 0, roi := 0,
    max_drawdown := 0, profit_factor := 0, sharpe := 0, sortino := 0,
    calmar := 0, expectancy := 0, cagr := 0, avg_profit := 0, buys := 0,
    rejected_signals := 0, leverage := 1, timeframe := "5m",
    timerange := "20240101-20240201" }

/-- A zero-trade run with an incomplete identity, for the C2 witness. -/
def runZeroNoId : Metrics :=
  { runZeroTrades with strategy_name := "", timerange := "" }

/-- A stored active, unstalled row for the C10 counterexample. -/
def oldRow : DbRow :=
  { strategy_name := "S", exchange := "gateio", stake_currency := "USDT",
    total_backtests := 3, medians := [], backtest_win_percentage := 0,
    ninja_score := 0, has_lookahead_bias := false, leverage := 1,
    strategy_hash := none, is_stalled := false, stall_reason := none,
    is_active := true }

/-- A run whose aggregate is classified negative (one run, profit -1, trades 5). -/
def negRun : Metrics :=
  { runZeroTrades with
    total_trades := 5
    buys := 5
    total_profit_pct := -1
    roi := -1
    avg_profit := -(1/5) }

/-- An archive block whose headline profit is non-zero (5) next to a trade
list summing to 1, for the C6 counterexample. -/
def sdNonzeroHeadline : StrategyData :=
  { total_trades := 1, wins := 0, losses := 0, profit_total := 0,
    profit_total_pct := 5, trades := [⟨1/100, 0, none, none⟩],
    results_per_pair := [], max_drawdown := 0, profit_factor := 0, sharpe := 0,
    sortino := 0, calmar := 0, expectancy := 0, cagr := 0,
    rejected_signals := 0, timeframe := "5m", timerange := "" }

/-- An archive block with zero headline trade count and profit next to a
one-trade list of profit_ratio 0.02, for the C6 witness. -/
def sdZeroHeadline : StrategyData :=
  { sdNonzeroHeadline with
    total_trades := 0
    profit_total_pct := 0
    trades := [⟨2/100, 0, none, none⟩] }

/-- A healthy stored rating whose strategy EWO exists on disk. -/
def ratingA : Rating :=
  { strategy_name := "EWO", strategy_key := "EWO_5m", exchange := "gateio",
    stake_currency := "USDT", timeframe := "5m", timerange := "",
    total_backtests := 2, updated_at := "t1", medians := [],
    backtest_win_percentage := 50, ninja_score := 2,
    has_lookahead_bias := false, lookahead_issues := [], leverage := 1,
    strategy_hash := none, is_stalled := false, stall_reason := none,
    is_active := true }

/-- A second healthy stored rating with a lower score. -/
def ratingB : Rating :=
  { ratingA with
    strategy_name := "EWO2"
    strategy_key := "EWO2_5m"
    ninja_score := 1 }

/-- A stalled, unbiased stored rating. -/
def ratingStalled : Rating :=
  { ratingA with
    is_stalled := true
    stall_reason := some "negative"
    is_active := false }

/-- A stored rating that is both stalled and flagged with lookahead bias. -/
def ratingBiasedStalled : Rating :=
  { ratingA with
    has_lookahead_bias := true
    is_stalled := true
    stall_reason := some "biased"
    is_active := false }

/-- The failed-tab query with all other parameters at their route defaults
(in particular exclude_stalled = true). -/
def pFailed : QueryParams := { tab := some "failed" }

/-- A one-strategy batch for the run-trace examples. -/
def exGroups : List (String × List Metrics) := [("EWO_5m", [runZeroTrades])]

/-- Bias-scan stub: no strategy file matches any pattern. -/
def exBias : String → Bool × List String := fun _ => (false, [])

/-- Hash stub: no strategy file found. -/
def exHash : String → Option String := fun _ => none

/-! ## Helper lemmas -/

theorem median_prefix_inj {a b : String}
    (h : ("median_" ++ a : String) = "median_" ++ b) : a = b := by
  have h2 : ("median_" ++ a : String).data = ("median_" ++ b : String).data :=
    congrArg String.data h
  rw [String.data_append, String.data_append] at h2
  exact String.ext (List.append_cancel_left h2)

theorem lookup_filterMap_medianEntry (fs : List String) (ml : List MetricMap)
    (f : String) (hmem : f ∈ fs) (hnd : fs.Nodup) (x : ℚ)
    (hval : medianValue ml f = some x) :
    List.lookup ("median_" ++ f) (fs.filterMap (medianEntry ml)) = some x := by
  induction fs with
  | nil => cases hmem
  | cons g gs ih =>
    rw [List.filterMap_cons]
    rcases List.mem_cons.mp hmem with hfg | hmem2
    · subst hfg
      rw [medianEntry, hval]
      simp [List.lookup]
    · have hne : ("median_" ++ f == "median_" ++ g) = false := by
        apply beq_eq_false_iff_ne.mpr
        intro hEq
        exact (List.nodup_cons.mp hnd).1 ((median_prefix_inj hEq) ▸ hmem2)
      cases hme : medianEntry ml g with
      | none =>
        exact ih hmem2 (List.nodup_cons.mp hnd).2
      | some e =>
        have hkey : e.1 = "median_" ++ g := by
          rw [medianEntry] at hme
          cases hmv : medianValue ml g with
          | none => rw [hmv] at hme; cases hme
          | some y =>
            rw [hmv] at hme
            simp only [Option.map_some'] at hme
            rw [← Option.some_inj.mp hme]
        cases e with
        | mk k v =>
          simp only at hkey
          subst hkey
          simp only [List.lookup, hne]
          exact ih hmem2 (List.nodup_cons.mp hnd).2

theorem pyMedian_spec (l : List ℚ) :
    ∃ s : List ℚ, l.Perm s ∧ s.Sorted (· ≤ ·) ∧
      pyMedian l = (if s.length % 2 = 1 then s.getD (s.length / 2) 0
        else (s.getD (s.length / 2 - 1) 0 + s.getD (s.length / 2) 0) / 2) := by
  refine ⟨List.insertionSort (· ≤ ·) l, (List.perm_insertionSort _ l).symm,
    List.sorted_insertionSort _ l, ?_⟩
  have hlen : (List.insertionSort (· ≤ ·) l).length = l.length :=
    (List.perm_insertionSort _ l).length_eq
  rw [hlen, pyMedian]

/-! ## Claim theorems -/

/-- Claim C1: the spec requires the composite score to include the aggregated
backtest_win_percentage (100 x profitable runs / total runs) times its weight
10, so that two inputs differing only in this field score 10 times the
difference apart.  The code contradicts its own callers: save_to_json and
save_to_database carefully pass the aggregated backtest_win_percentage inside
the metrics dict, but calculate_ninja_score never reads that entry and instead
recomputes the component as backtest_count / max(backtest_count, 1) * 100 — a
constant 100 for every non-empty run set.  Evaluating the code at the failing
input: aggregated inputs that differ only in backtest_win_percentage (50 vs
80) receive equal scores instead of scores 300 apart. -/
theorem ninja_score_ignores_backtest_win_percentage :
    calculate_ninja_score [("backtest_win_percentage", 50)] 2
        = calculate_ninja_score [("backtest_win_percentage", 80)] 2
      ∧ ¬(calculate_ninja_score [("backtest_win_percentage", 80)] 2
            - calculate_ninja_score [("backtest_win_percentage", 50)] 2
          = 10 * (80 - 50)) := by
  have h : calculate_ninja_score [("backtest_win_percentage", 50)] 2
      = calculate_ninja_score [("backtest_win_percentage", 80)] 2 := by
    simp only [calculate_ninja_score, mget, wght, NINJA_WEIGHTS, List.lookup,
      String.reduceBEq, Option.getD_some, Option.getD_none]
  refine ⟨h, ?_⟩
  rw [← h, sub_self]
  norm_num

/-- Claim C5 (counterexample): a numeric field with zero observed values is
absent from the aggregated median map rather than reported as median 0 — with
a non-empty run list in which no dict carries total_profit_pct, the map built
by calculate_median_metrics has no median_total_profit_pct entry. -/
theorem median_of_zero_observed_values_is_absent :
    List.lookup "median_total_profit_pct"
        (calculate_median_metrics [[("total_trades", 3)]]) = none := by
  simp [calculate_median_metrics, medianEntry, medianValue, observedValues,
    numeric_fields, List.lookup]

/-- Claim C5 (amended): for every numeric field with at least one observed
value, aggregation stores exactly the standard median — some permutation of
the observed values is sorted ascending and the stored value is its middle
element (odd length) or the mean of its two middle elements (even length);
the spec's concrete examples [1,2,3,4] to 5/2 and [5] to 5 hold.  A field
with zero observed values is omitted from the median map (the later score
lookup defaults it to 0); it is not stored as 0. -/
theorem calculate_median_metrics_correct :
    (∀ (ml : List MetricMap) (f : String) (x : ℚ),
        f ∈ numeric_fields → ml ≠ [] → medianValue ml f = some x →
        List.lookup ("median_" ++ f) (calculate_median_metrics ml) = some x)
    ∧ (∀ l : List ℚ, ∃ s : List ℚ, l.Perm s ∧ s.Sorted (· ≤ ·) ∧
        pyMedian l = (if s.length % 2 = 1 then s.getD (s.length / 2) 0
          else (s.getD (s.length / 2 - 1) 0 + s.getD (s.length / 2) 0) / 2))
    ∧ pyMedian [1, 2, 3, 4] = 5/2 ∧ pyMedian [5] = 5 := by
  refine ⟨?_, pyMedian_spec, ?_, ?_⟩
  · intro ml f x hf hml hval
    rw [calculate_median_metrics, if_neg hml]
    exact lookup_filterMap_medianEntry numeric_fields ml f hf (by decide) x hval
  · norm_num [pyMedian, List.insertionSort, List.orderedInsert]
  · norm_num [pyMedian, List.insertionSort, List.orderedInsert]

/-- Witness for calculate_median_metrics_correct at the spec's own example. -/
theorem calculate_median_metrics_correct_witness :
    List.lookup ("median_" ++ "total_profit_pct") (calculate_median_metrics mlC5)
      = some (5/2) := by
  have h := calculate_median_metrics_correct
  have h1 := h.1 mlC5 "total_profit_pct" (pyMedian [1, 2, 3, 4])
    (by simp [numeric_fields]) (by simp [mlC5])
    (by simp [medianValue, observedValues, mlC5, List.lookup])
  rw [h1, h.2.2.1]

/-- Claim C2 (counterexample): in the standalone JSON backend a run list in
which every run has zero trades is NOT classified no_trades whenever some run
carries a complete identity — save_to_json lines 580-592 skip the no_trades
rule in that case.  Here a single zero-trade run with strategy name,
timeframe and timerange set produces is_stalled = false, where the claim
requires is_stalled = true with stall_reason no_trades. -/
theorem zero_trades_with_identity_not_stalled :
    stall_standalone [runZeroTrades] false = (false, none)
    ∧ (save_to_json "EWO_5m_20240101-20240201" [runZeroTrades] false [] none
        "t").map (fun r => (r.is_stalled, r.stall_reason, r.is_active))
      = some (false, none, true) := by
  have h1 : stall_standalone [runZeroTrades] false = (false, none) := by
    norm_num [stall_standalone, runZeroTrades, pyMean]
    exact ⟨by decide, by decide, by decide⟩
  refine ⟨h1, ?_⟩
  simp only [save_to_json]
  rw [if_neg (by simp)]
  simp only [Option.map_some']
  rw [h1]
  rfl

/-- Claim C2 (amended): with the first-match priority order no_trades >
biased > 90_percent_negative > negative (realized in the code as an overwrite
chain evaluated in the reverse order), a non-empty run list in which every run
has zero trades is classified is_stalled = true, stall_reason = no_trades —
unconditionally in the relational backend (save_to_database), and in the
standalone JSON backend (save_to_json) only when additionally no run carries a
complete identity (non-empty strategy name, timeframe and timerange);
otherwise the standalone backend skips the no_trades rule.  Both conclusions
hold whatever the bias flag and profit values, i.e. even when the biased,
90_percent_negative or negative conditions also hold. -/
theorem zero_trades_stall_priority :
    ∀ (ml : List Metrics) (bias : Bool), ml ≠ [] →
      (∀ m ∈ ml, m.total_trades = 0) →
      stall_database ml bias = (true, some "no_trades")
      ∧ ((∀ m ∈ ml, m.strategy_name = "" ∨ m.timeframe = "" ∨ m.timerange = "") →
          stall_standalone ml bias = (true, some "no_trades")) := by
  intro ml bias _hne hzero
  have hall : (ml.all fun m => decide (m.total_trades = 0)) = true := by
    rw [List.all_eq_true]
    intro m hm
    exact decide_eq_true (hzero m hm)
  constructor
  · simp only [stall_database]
    rw [hall]
    simp
  · intro hid
    have hany : (ml.any fun m =>
        decide (m.strategy_name ≠ "" ∧ m.timeframe ≠ "" ∧ m.timerange ≠ "")) = false := by
      rw [List.any_eq_false]
      intro m hm
      simp only [decide_eq_true_eq]
      rcases hid m hm with h | h | h
      · exact fun hc => hc.1 h
      · exact fun hc => hc.2.1 h
      · exact fun hc => hc.2.2 h
    simp only [stall_standalone]
    rw [hall, hany]
    simp

/-- Witness for zero_trades_stall_priority: one zero-trade run with no
strategy name, classified no_trades by both backends even with the bias flag
set. -/
theorem zero_trades_stall_priority_witness :
    stall_database [runZeroNoId] true = (true, some "no_trades")
    ∧ stall_standalone [runZeroNoId] true = (true, some "no_trades") := by
  have h := zero_trades_stall_priority [runZeroNoId] true (by simp)
    (by intro m hm; rw [List.mem_singleton] at hm; subst hm; rfl)
  exact ⟨h.1, h.2 (by intro m hm; rw [List.mem_singleton] at hm; subst hm; left; rfl)⟩

/-- Claim C10 (counterexample): the relational DO UPDATE column list omits
is_active, so recomputing an existing identity whose new classification is
stalled leaves the stored row simultaneously active and stalled — the claimed
invariant is_active = not is_stalled fails right after the upsert. -/
theorem upsert_leaves_stale_active_flag :
    (upsertRow (some oldRow) (save_to_database_values "S" [negRun] false none)).is_active
        = true
    ∧ (upsertRow (some oldRow) (save_to_database_values "S" [negRun] false none)).is_stalled
        = true := by
  constructor
  · rfl
  · show (save_to_database_values "S" [negRun] false none).is_stalled = true
    norm_num [save_to_database_values, stall_database, negRun, runZeroTrades, pyMean]

/-- Claim C10 (amended): both backends compute the active flag as the exact
negation of the stall flag and write it on every fresh insert — every rating
built by save_to_json has is_active = not is_stalled, the relational VALUES
row has is_active = not is_stalled, and an insert of a fresh identity stores
that row unchanged.  A conflict update, however, leaves the stored is_active
untouched (it is absent from the DO UPDATE SET list), so the invariant can
fail for re-computed identities in the relational backend. -/
theorem active_flag_is_negation_on_write :
    ∀ (key : String) (ml : List Metrics) (bias : Bool) (issues : List String)
      (hsh : Option String) (now : String) (nm : String) (old v : DbRow),
      ((save_to_json key ml bias issues hsh now).all
          (fun r => r.is_active == !r.is_stalled)) = true
      ∧ (save_to_database_values nm ml bias hsh).is_active
          = !(save_to_database_values nm ml bias hsh).is_stalled
      ∧ upsertRow none v = v
      ∧ (upsertRow (some old) v).is_active = old.is_active := by
  intro key ml bias issues hsh now nm old v
  refine ⟨?_, rfl, rfl, rfl⟩
  rw [save_to_json]
  split
  · rfl
  · simp [Option.all]

/-- Claim C9: extraction is a total function into Option — a corrupt or
unparseable archive yields none, never an exception — and the batch grouping
loop is insensitive to such archives wherever they occur: the groups built
from a batch with a corrupt archive spliced in are exactly the groups built
without it, so the batch always runs to completion. -/
theorem corrupt_archive_skipped_batch_continues :
    ∀ (groups : List (String × List Metrics)) (pre post : List Archive),
      processGroupsAux groups (pre ++ Archive.corruptArchive :: post)
          = processGroupsAux groups (pre ++ post)
      ∧ extract_backtest_metrics Archive.corruptArchive = none := by
  intro groups pre post
  refine ⟨?_, rfl⟩
  induction pre generalizing groups with
  | nil => simp [processGroupsAux, extract_backtest_metrics]
  | cons a rest ih =>
    cases h : extract_backtest_metrics a with
    | none => simpa [processGroupsAux, h] using ih _
    | some m => simpa [processGroupsAux, h] using ih _

theorem extract_total_trades_eq (name : String) (sd : StrategyData) :
    (extract_strategy_block name sd).total_trades = computedTotalTrades sd := rfl

theorem extract_profit_eq (name : String) (sd : StrategyData) :
    (extract_strategy_block name sd).total_profit_pct = computedProfitTotalPct sd := rfl

theorem computedTotalTrades_of_zero (sd : StrategyData)
    (h0 : sd.total_trades = 0) (hne : sd.trades ≠ []) :
    computedTotalTrades sd = (sd.trades.length : ℤ) := by
  simp only [computedTotalTrades]
  have h1 : (if sd.total_trades = 0 ∧ sd.trades ≠ [] then ((sd.trades.length : ℤ))
      else sd.total_trades) = (sd.trades.length : ℤ) := if_pos ⟨h0, hne⟩
  rw [h1, if_neg]
  intro hc
  have hlen : sd.trades.length = 0 := by exact_mod_cast hc.1
  exact hne (List.length_eq_zero.mp hlen)

theorem computedTotalTrades_of_nonzero (sd : StrategyData)
    (h0 : sd.total_trades ≠ 0) :
    computedTotalTrades sd = sd.total_trades := by
  simp only [computedTotalTrades]
  have h1 : (if sd.total_trades = 0 ∧ sd.trades ≠ [] then ((sd.trades.length : ℤ))
      else sd.total_trades) = sd.total_trades := if_neg (fun hc => h0 hc.1)
  rw [h1, if_neg (fun hc => h0 hc.1)]

theorem profitFromTrades_of_sum_ne (sd : StrategyData)
    (hsum : tradesProfitSum sd ≠ 0) :
    profitFromTrades sd = tradesProfitSum sd := by
  simp only [profitFromTrades]
  rw [if_neg hsum]

theorem computedProfit_of_trades (sd : StrategyData)
    (hpos : computedTotalTrades sd > 0) (hne : sd.trades ≠ [])
    (hsum : tradesProfitSum sd ≠ 0) :
    computedProfitTotalPct sd = tradesProfitSum sd := by
  simp only [computedProfitTotalPct]
  have h1 : (if computedTotalTrades sd > 0 ∧ sd.trades ≠ [] then profitFromTrades sd
      else sd.profit_total_pct) = tradesProfitSum sd := by
    rw [if_pos ⟨hpos, hne⟩]
    exact profitFromTrades_of_sum_ne sd hsum
  rw [h1, if_neg (fun hc => hsum hc.1)]

/-- Claim C6 (counterexample): the claim says a non-zero headline profit is
kept as-is, with the trade-list recomputation used only when the headline is
zero or missing.  The code (lines 204-218, comment "ALWAYS recompute profit
from trades array") discards the headline whenever the trade count is
positive and the trade list is non-empty: with headline profit 5 and a single
trade of profit_ratio 0.01, extraction reports 1, not 5. -/
theorem nonzero_headline_profit_not_kept :
    sdNonzeroHeadline.profit_total_pct = 5
    ∧ (extract_strategy_block "S" sdNonzeroHeadline).total_profit_pct = 1 := by
  refine ⟨rfl, ?_⟩
  rw [extract_profit_eq, computedProfit_of_trades]
  · norm_num [tradesProfitSum, sdNonzeroHeadline]
  · norm_num [computedTotalTrades, sdNonzeroHeadline]
  · simp [sdNonzeroHeadline]
  · norm_num [tradesProfitSum, sdNonzeroHeadline]

/-- Claim C6 (amended): the headline trade count is kept when non-zero and
recomputed as the trade-list length when it is zero and the list is
non-empty; the headline profit, by contrast, is recomputed from a non-empty
trade list (as the sum of per-trade profit_ratio x 100) whenever the resolved
trade count is positive — regardless of whether the headline profit was zero
— so in particular the trade-list-derived value is used whenever the headline
is exactly zero. -/
theorem headline_zero_fallbacks :
    ∀ (sd : StrategyData) (name : String),
      (sd.total_trades = 0 → sd.trades ≠ [] →
        (extract_strategy_block name sd).total_trades = (sd.trades.length : ℤ))
      ∧ (sd.total_trades ≠ 0 →
        (extract_strategy_block name sd).total_trades = sd.total_trades)
      ∧ (computedTotalTrades sd > 0 → sd.trades ≠ [] →
          tradesProfitSum sd ≠ 0 →
        (extract_strategy_block name sd).total_profit_pct
          = tradesProfitSum sd) := by
  intro sd name
  refine ⟨?_, ?_, ?_⟩
  · intro h0 hne
    rw [extract_total_trades_eq]
    exact computedTotalTrades_of_zero sd h0 hne
  · intro h0
    rw [extract_total_trades_eq]
    exact computedTotalTrades_of_nonzero sd h0
  · intro hpos hne hsum
    rw [extract_profit_eq]
    exact computedProfit_of_trades sd hpos hne hsum

/-- Witness for headline_zero_fallbacks: with zero headline values, the trade
count falls back to the list length 1 and the profit to the trade-list sum 2. -/
theorem headline_zero_fallbacks_witness :
    (extract_strategy_block "S" sdZeroHeadline).total_trades = 1
    ∧ (extract_strategy_block "S" sdZeroHeadline).total_profit_pct = 2 := by
  have h := headline_zero_fallbacks sdZeroHeadline "S"
  constructor
  · have h1 := h.1 rfl (by simp [sdZeroHeadline, sdNonzeroHeadline])
    rw [h1]
    simp [sdZeroHeadline, sdNonzeroHeadline]
  · have h3 := h.2.2
      (by norm_num [computedTotalTrades, sdZeroHeadline, sdNonzeroHeadline])
      (by simp [sdZeroHeadline, sdNonzeroHeadline])
      (by norm_num [tradesProfitSum, sdZeroHeadline, sdNonzeroHeadline])
    rw [h3]
    norm_num [tradesProfitSum, sdZeroHeadline, sdNonzeroHeadline]

theorem mem_sortRankings {p : QueryParams} {l : List Rating} {r : Rating} :
    r ∈ sortRankings p l ↔ r ∈ l := by
  unfold sortRankings
  split
  · exact (List.perm_insertionSort _ l).mem_iff
  · exact (List.perm_insertionSort _ l).mem_iff

theorem sortRankings_length (p : QueryParams) (l : List Rating) :
    (sortRankings p l).length = l.length := by
  unfold sortRankings
  split
  · exact (List.perm_insertionSort _ l).length_eq
  · exact (List.perm_insertionSort _ l).length_eq

theorem mem_applyTab_subset {tab : Option String} {l : List Rating} {r : Rating}
    (h : r ∈ applyTab tab l) : r ∈ l := by
  unfold applyTab at h
  split at h
  · exact (List.perm_insertionSort _ l).mem_iff.mp h
  · split at h
    · exact List.mem_of_mem_filter h
    · exact h

/-- Claim C4: every rating answered by the query surface has
has_lookahead_bias = false, for any tab and any filter combination, including
exclude_bias = false — the file-backend read get_rankings_from_json drops
biased records unconditionally before tabs and filters are applied. -/
theorem served_rankings_never_biased :
    ∀ (catalog : List String) (stored : List Rating) (p : QueryParams)
      (r : Rating), r ∈ (get_rankings_with_tab catalog stored p).1 →
      r.has_lookahead_bias = false := by
  intro catalog stored p r hr
  simp only [get_rankings_with_tab] at hr
  have h1 := List.take_subset _ _ hr
  have h2 := mem_sortRankings.mp h1
  have h3 := List.mem_of_mem_filter h2
  have h4 := mem_applyTab_subset h3
  simp only [get_rankings_from_json] at h4
  have h5 := List.take_subset _ _ h4
  have h6 := (List.mem_filter.mp h5).2
  simp only [Bool.and_eq_true, Bool.not_eq_true'] at h6
  exact h6.2

/-- Witness for served_rankings_never_biased: a concrete default query over a
one-record store serves that record, and it is unbiased. -/
theorem served_rankings_never_biased_witness :
    ratingA.has_lookahead_bias = false := by
  apply served_rankings_never_biased ["EWO"] [ratingA] {} ratingA
  have hpred : (strategyExistsCheck ["EWO"] ratingA && !ratingA.has_lookahead_bias)
      = true := by decide
  have hread : get_rankings_from_json ["EWO"] [ratingA] 1000 = [ratingA] := by
    simp [get_rankings_from_json, hpred]
  have hpass : passesFilters {} ratingA = true := by
    norm_num [passesFilters, mgetD, ratingA, List.lookup]
  simp only [get_rankings_with_tab, hread]
  norm_num [applyTab, hpass, sortRankings, List.insertionSort, List.orderedInsert,
    List.filter]

theorem passesFilters_failed (p : QueryParams) (r : Rating)
    (htab : p.tab = some "failed") : passesFilters p r = otherFiltersPass p r := by
  unfold passesFilters otherFiltersPass
  rw [htab]
  simp

/-- Claim C3 (counterexample): a stored rating that is stalled AND flagged
with lookahead bias is dropped by the file-backend read before the failed tab
is even consulted, so a failed-tab query with exclude_stalled = true does not
return it — the claim's universal "every stored rating with is_stalled = true
appears under tab=failed" fails at this input. -/
theorem stalled_biased_rating_missing_from_failed_tab :
    ratingBiasedStalled.is_stalled = true
    ∧ (get_rankings_with_tab ["EWO"] [ratingBiasedStalled] pFailed).1 = [] := by
  constructor
  · rfl
  · have hpred : (strategyExistsCheck ["EWO"] ratingBiasedStalled
        && !ratingBiasedStalled.has_lookahead_bias) = false := by decide
    have hread : get_rankings_from_json ["EWO"] [ratingBiasedStalled] 1000 = [] := by
      simp [get_rankings_from_json, hpred]
    simp [get_rankings_with_tab, hread, applyTab, pFailed, sortRankings,
      List.insertionSort]

/-- Claim C3 (amended): a stored stalled rating that survives the file-backend
read (its strategy exists on disk and it carries no lookahead-bias flag) and
passes the stall-independent filters is in the failed tab's filtered result
set whatever the exclude_stalled parameter says — the failed tab does not
apply the exclude-stalled filter — and is returned whenever the result set
fits in the page limit. -/
theorem failed_tab_shows_stalled :
    ∀ (catalog : List String) (stored : List Rating) (p : QueryParams)
      (r : Rating),
      p.tab = some "failed" →
      r ∈ get_rankings_from_json catalog stored 1000 →
      r.is_stalled = true →
      otherFiltersPass p r = true →
      r ∈ sortRankings p
          ((applyTab p.tab (get_rankings_from_json catalog stored 1000)).filter
            (passesFilters p))
      ∧ ((sortRankings p
            ((applyTab p.tab (get_rankings_from_json catalog stored 1000)).filter
              (passesFilters p))).length ≤ p.limit →
          r ∈ (get_rankings_with_tab catalog stored p).1) := by
  intro catalog stored p r htab hmem hstall hfilters
  have htabbed : r ∈ applyTab p.tab (get_rankings_from_json catalog stored 1000) := by
    rw [htab]
    simp only [applyTab]
    rw [if_neg (by simp), if_pos trivial]
    exact List.mem_filter.mpr ⟨hmem, by rw [hstall]; simp⟩
  have hpass : passesFilters p r = true := by
    rw [passesFilters_failed p r htab]
    exact hfilters
  have hfiltered : r ∈ (applyTab p.tab
      (get_rankings_from_json catalog stored 1000)).filter (passesFilters p) :=
    List.mem_filter.mpr ⟨htabbed, hpass⟩
  refine ⟨mem_sortRankings.mpr hfiltered, ?_⟩
  intro hlen
  simp only [get_rankings_with_tab]
  rw [List.take_of_length_le hlen]
  exact mem_sortRankings.mpr hfiltered

/-- Witness for failed_tab_shows_stalled: a concrete stalled, unbiased rating
is returned by the failed-tab query even though exclude_stalled = true. -/
theorem failed_tab_shows_stalled_witness :
    ratingStalled ∈ (get_rankings_with_tab ["EWO"] [ratingStalled] pFailed).1 := by
  have hpred : (strategyExistsCheck ["EWO"] ratingStalled
      && !ratingStalled.has_lookahead_bias) = true := by decide
  have hread : get_rankings_from_json ["EWO"] [ratingStalled] 1000
      = [ratingStalled] := by
    simp [get_rankings_from_json, hpred]
  have hfil : otherFiltersPass pFailed ratingStalled = true := by
    norm_num [otherFiltersPass, mgetD, pFailed, ratingStalled, ratingA, List.lookup]
  have h := failed_tab_shows_stalled ["EWO"] [ratingStalled] pFailed ratingStalled
    rfl (by rw [hread]; exact List.mem_singleton.mpr rfl) rfl hfil
  apply h.2
  have hpass : passesFilters pFailed ratingStalled = true := by
    rw [passesFilters_failed pFailed ratingStalled rfl]
    exact hfil
  have htabbed : applyTab pFailed.tab (get_rankings_from_json ["EWO"]
      [ratingStalled] 1000) = [ratingStalled] := by
    rw [hread]
    simp [applyTab, pFailed, ratingStalled, ratingA]
  rw [htabbed]
  simp [hpass, sortRankings, List.insertionSort, List.orderedInsert, pFailed,
    List.filter]

/-- Claim C7 (amended): the query answers with the offset-0 slice — the first
limit records — of the filtered-and-sorted set (there is no offset parameter
in the interface), and the reported total equals the number of records that
pass the filters, not the size of the unfiltered catalog. -/
theorem pagination_is_first_page_only :
    ∀ (catalog : List String) (stored : List Rating) (p : QueryParams),
      (get_rankings_with_tab catalog stored p).1
        = querySpecSlice (sortRankings p ((applyTab p.tab
            (get_rankings_from_json catalog stored 1000)).filter
              (passesFilters p))) 0 p.limit
      ∧ (get_rankings_with_tab catalog stored p).2.1
        = ((applyTab p.tab (get_rankings_from_json catalog stored 1000)).filter
            (passesFilters p)).length := by
  intro catalog stored p
  constructor
  · simp only [get_rankings_with_tab, querySpecSlice, List.drop_zero]
  · simp only [get_rankings_with_tab]
    exact sortRankings_length p _

theorem lowerStr_desc : lowerStr "desc" = "desc" := by decide

/-- Claim C7 (counterexample): with two stored ratings, the page of limit 1 is
[ratingA] and the page of limit 2 is [ratingA, ratingB] — consecutive pages
obtainable from the interface overlap on ratingA rather than partition the
filtered set, while the spec's offset-1 slice [ratingB] is produced by no
parameter value (the query interface has no offset parameter). -/
theorem consecutive_pages_overlap :
    (get_rankings_with_tab ["EWO", "EWO2"] [ratingA, ratingB] { limit := 1 }).1
        = [ratingA]
    ∧ (get_rankings_with_tab ["EWO", "EWO2"] [ratingA, ratingB] { limit := 2 }).1
        = [ratingA, ratingB]
    ∧ querySpecSlice [ratingA, ratingB] 1 1 = [ratingB] := by
  have hpredA : (strategyExistsCheck ["EWO", "EWO2"] ratingA
      && !ratingA.has_lookahead_bias) = true := by decide
  have hpredB : (strategyExistsCheck ["EWO", "EWO2"] ratingB
      && !ratingB.has_lookahead_bias) = true := by decide
  have hread : get_rankings_from_json ["EWO", "EWO2"] [ratingA, ratingB] 1000
      = [ratingA, ratingB] := by
    simp [get_rankings_from_json, hpredA, hpredB]
  have hpassA : ∀ lim : ℕ, passesFilters { limit := lim } ratingA = true := by
    intro lim
    norm_num [passesFilters, mgetD, ratingA, List.lookup]
  have hpassB : ∀ lim : ℕ, passesFilters { limit := lim } ratingB = true := by
    intro lim
    norm_num [passesFilters, mgetD, ratingB, ratingA, List.lookup]
  have hsorted : ∀ lim : ℕ,
      sortRankings { limit := lim } [ratingA, ratingB] = [ratingA, ratingB] := by
    intro lim
    norm_num [sortRankings, List.insertionSort, List.orderedInsert, sortVal,
      strStartsWith, transformedLookup, ratingA, ratingB, lowerStr_desc]
  refine ⟨?_, ?_, by simp [querySpecSlice]⟩
  · simp [get_rankings_with_tab, hread, applyTab, hpassA 1, hpassB 1, hsorted 1]
  · simp [get_rankings_with_tab, hread, applyTab, hpassA 2, hpassB 2, hsorted 2]

/-- Claim C8 (amended): on every full-batch recompute, the index content
written to rankings.json is sorted by composite score descending, but every
operation in the write trace is a direct in-place write (Path.write_text) —
the trace contains no write-to-temp-then-replace step, so the rewrite is not
atomic in the claimed sense. -/
theorem index_sorted_but_written_directly :
    ∀ (inputs : List (String × List Metrics)) (biasOf : String → Bool × List String)
      (hashOf : String → Option String) (now : String),
      (∀ rs : List Rating,
        FsOp.writeIndex "rankings.json" rs ∈ runWrites inputs biasOf hashOf now →
        List.Sorted (fun a b : Rating => b.ninja_score ≤ a.ninja_score) rs)
      ∧ (∀ op ∈ runWrites inputs biasOf hashOf now, op.isTempReplace = false) := by
  intro inputs biasOf hashOf now
  constructor
  · intro rs hmem
    simp only [runWrites] at hmem
    rcases List.mem_append.mp hmem with h | h
    · exfalso
      rcases List.mem_map.mp h with ⟨g, _, hEq⟩
      exact FsOp.noConfusion hEq
    · have hEq := List.mem_singleton.mp h
      injection hEq with h1 h2
      rw [h2, scoreDescSort]
      exact List.sorted_insertionSort _ _
  · intro op hop
    simp only [runWrites] at hop
    rcases List.mem_append.mp hop with h | h
    · rcases List.mem_map.mp h with ⟨g, _, hEq⟩
      rw [← hEq]
      rfl
    · rw [List.mem_singleton.mp h]
      rfl

/-- Witness for index_sorted_but_written_directly: the index content of a
concrete one-strategy batch is sorted by score descending. -/
theorem index_sorted_but_written_directly_witness :
    List.Sorted (fun a b : Rating => b.ninja_score ≤ a.ninja_score)
      (scoreDescSort ((exGroups.filterMap
        (fun g =>
          let base := if containsChar g.1 '_' then takeBeforeUnderscore g.1 else g.1
          (save_to_json g.1 g.2 (exBias base).1 (exBias base).2 (exHash base)
              "t").map (fun r => (g.1, r)))).map (·.2))) := by
  exact (index_sorted_but_written_directly exGroups exBias exHash "t").1 _
    (by simp [runWrites])

/-- Claim C8 (counterexample): the concrete write trace of a one-strategy
batch does contain an index write but contains no write-to-temp-then-replace
operation — the source rewrites rankings.json with a single direct
Path.write_text call, so no atomic temp-file replacement happens. -/
theorem run_trace_has_no_temp_replace :
    ((runWrites exGroups exBias exHash "t").filter (fun op => op.isTempReplace)) = []
    ∧ (runWrites exGroups exBias exHash "t").any (fun op => op.isIndexWrite)
        = true := by
  constructor
  · simp [runWrites, List.filter_append, List.filter_map, FsOp.isTempReplace]
  · simp [runWrites, List.any_append, FsOp.isIndexWrite]
